import Mathlib

/-!
Verification development for the SystemC PLL model (src/pll.h, src/pll.cpp).

The model is embedded shallowly:

* `bus_process` embeds the SC_METHOD `pll::bus_process` of pll.cpp as a pure
  function from the values it reads (reset, bus_we, bus_addr, bus_wdata) and
  the member registers to the new registers plus its two possible side
  effects: notifying `start_locking_event` with zero delay, and the direct
  write to the `locked` output in the CTRL-disable branch.
* `lockWake` / `lockResume` embed the SC_THREAD `pll::locking_process`: the
  thread is suspended either at its top-level `wait()` on its static
  sensitivity list (reset change, start event) — program counter `LockPC.idle`
  — or inside the timed `wait(500, SC_NS)` — `LockPC.sleeping wake` — during
  which, per SystemC semantics, its static sensitivity is ignored.
* `run` executes a chronological list of external stimulus occurrences
  (clock-edge bus writes, reset changes, plain clock edges) against the
  discrete-event semantics: a zero-delay event notification fires at the same
  instant and wakes the thread iff it is blocked at its static `wait()`; a
  pending timed wait resumes when simulated time reaches its wake-up instant.
  Simulated time is Nat nanoseconds.  Writes to the `locked` signal are
  recorded chronologically; `lockedAt` recovers the signal value at an
  instant (the last write at a time `≤ t`, initial value false, matching
  sc_signal<bool> default construction).
-/

namespace PllModel

/-- Register address map from pll.h. -/
def PLL_REG_N_ADDR : Nat := 0x00

/-- Address of the M divider register (pll.h). -/
def PLL_REG_M_ADDR : Nat := 0x04

/-- Address of the OD divider register (pll.h). -/
def PLL_REG_OD_ADDR : Nat := 0x08

/-- Address of the control register (pll.h). -/
def PLL_REG_CTRL_ADDR : Nat := 0x0C

/-- The private member state of the pll module (pll.h): the three 8-bit
divider registers `sc_uint<8> reg_m, reg_n, reg_od` (values kept < 256 by
the mod-256 truncation every assignment performs) and the plain C++ flag
`bool pll_enable`. -/
structure PllRegs where
  reg_n : Nat
  reg_m : Nat
  reg_od : Nat
  pll_enable : Bool
deriving Repr, DecidableEq

/-- The register state the reset branch of `pll::bus_process` establishes:
`reg_m = 0; reg_n = 0; reg_od = 0; pll_enable = false;`. -/
def zeroRegs : PllRegs := { reg_n := 0, reg_m := 0, reg_od := 0, pll_enable := false }

/-- Everything one invocation of `pll::bus_process` produces: the new member
registers, whether `start_locking_event.notify(SC_ZERO_TIME)` was issued, and
the value directly written to the `locked` output port, if any. -/
structure BusEffects where
  regs : PllRegs
  notifyStart : Bool
  lockedWrite : Option Bool
deriving Repr, DecidableEq

/-- Embedding of `pll::bus_process` (pll.cpp lines 60–187).  `rst`, `we`,
`addr`, `data` are the values read from the reset, bus_we, bus_addr and
bus_wdata ports; `r` is the member register state.  Assigning the 32-bit
`bus_wdata` to an `sc_uint<8>` register truncates to the low 8 bits. -/
def bus_process (rst we : Bool) (addr data : Nat) (r : PllRegs) : BusEffects :=
  if rst then
    { regs := zeroRegs, notifyStart := false, lockedWrite := none }
  else if we then
    if addr = PLL_REG_N_ADDR then
      { regs := { r with reg_n := data % 256 }, notifyStart := false, lockedWrite := none }
    else if addr = PLL_REG_M_ADDR then
      { regs := { r with reg_m := data % 256 }, notifyStart := false, lockedWrite := none }
    else if addr = PLL_REG_OD_ADDR then
      { regs := { r with reg_od := data % 256 }, notifyStart := false, lockedWrite := none }
    else if addr = PLL_REG_CTRL_ADDR then
      if data = 1 then
        { regs := { r with pll_enable := true }, notifyStart := true, lockedWrite := none }
      else
        { regs := { r with pll_enable := false }, notifyStart := false, lockedWrite := some false }
    else
      { regs := r, notifyStart := false, lockedWrite := none }
  else
    { regs := r, notifyStart := false, lockedWrite := none }

/-- Embedding of the body of `SC_CTOR(pll)` (pll.h lines 277–377) as it acts
on the member state left behind by default member construction: the only
member the constructor body assigns is `pll_enable = false;` — the divider
registers are not assigned there. -/
def pll_ctor (members : PllRegs) : PllRegs := { members with pll_enable := false }

/-- The outcome of the diagnostic frequency computation performed by
`pll::locking_process` after a successful lock (pll.cpp lines 301–317):
`double f_out_mhz = (F_REF_MHZ * reg_m) / (reg_n * reg_od);` is executed
unconditionally; `divByZero` records that the division is reached with a
zero divisor (under IEEE-754 double semantics it then yields an infinity). -/
inductive DiagResult where
  | value : ℚ → DiagResult
  | divByZero : DiagResult
deriving Repr, DecidableEq

/-- Reference frequency constant `const double F_REF_MHZ = 25.0;` (pll.cpp). -/
def F_REF_MHZ : ℚ := 25

/-- Embedding of the diagnostic computation in `pll::locking_process`: it is
computed from the register values with no guard, so a zero divisor reaches
the floating-point division. -/
def lock_diagnostic (r : PllRegs) : DiagResult :=
  if r.reg_n * r.reg_od = 0 then DiagResult.divByZero
  else DiagResult.value (F_REF_MHZ * (r.reg_m : ℚ) / ((r.reg_n : ℚ) * (r.reg_od : ℚ)))

/-- The suspension point of the SC_THREAD `pll::locking_process`: blocked at
its top-level `wait()` on the static sensitivity list (`idle`), or inside the
timed `wait(500, SC_NS)` with absolute resume instant `wake` (`sleeping`). -/
inductive LockPC where
  | idle : LockPC
  | sleeping : Nat → LockPC
deriving Repr, DecidableEq

/-- Discrete-event state of the simulated system: member registers, the
current value of the reset signal, the locking thread's suspension point, and
the chronological list of (time, value) writes issued to the `locked`
signal by either process. -/
structure SimState where
  regs : PllRegs
  resetSig : Bool
  pc : LockPC
  lockedWrites : List (Nat × Bool)
deriving Repr, DecidableEq

/-- State after elaboration: registers as constructed (`pll_ctor` applied to
zero-valued `sc_uint<8>` members — sc_uint default-constructs to 0), reset
signal low, the thread parked at its first `wait()`, no writes yet. -/
def initState : SimState :=
  { regs := pll_ctor { reg_n := 0, reg_m := 0, reg_od := 0, pll_enable := true },
    resetSig := false, pc := LockPC.idle, lockedWrites := [] }

/-- One execution of the body of `pll::locking_process` after its top-level
`wait()` returns at time `t` (pll.cpp lines 214–263): reset has priority and
drives `locked` low; otherwise, if `pll_enable` is set, the thread drives
`locked` low and enters the timed `wait(500, SC_NS)`, to resume at `t + 500`;
otherwise it loops back to `wait()`. -/
def lockWake (t : Nat) (s : SimState) : SimState :=
  if s.resetSig then
    { s with lockedWrites := s.lockedWrites ++ [(t, false)] }
  else if s.regs.pll_enable then
    { s with lockedWrites := s.lockedWrites ++ [(t, false)], pc := LockPC.sleeping (t + 500) }
  else s

/-- Resumption of `pll::locking_process` when the timed `wait(500, SC_NS)`
expires at time `w` (pll.cpp lines 263–318): `pll_enable` is re-checked; only
if it is still set is `locked` driven high.  Either way the loop returns to
the top-level `wait()`. -/
def lockResume (w : Nat) (s : SimState) : SimState :=
  if s.regs.pll_enable then
    { s with lockedWrites := s.lockedWrites ++ [(w, true)], pc := LockPC.idle }
  else { s with pc := LockPC.idle }

/-- One triggering of the SC_METHOD `pll::bus_process` at time `t` with the
given bus inputs, including delivery of the zero-delay notification it may
issue: `notify(SC_ZERO_TIME)` fires in the next delta cycle of the same
instant and wakes `locking_process` iff that thread is blocked at its static
`wait()`; a thread inside the timed wait ignores it (sc_event notifications
are not stored). -/
def applyBus (t : Nat) (we : Bool) (addr data : Nat) (s : SimState) : SimState :=
  let eff := bus_process s.resetSig we addr data s.regs
  let s1 : SimState :=
    { s with
      regs := eff.regs,
      lockedWrites :=
        match eff.lockedWrite with
        | some v => s.lockedWrites ++ [(t, v)]
        | none => s.lockedWrites }
  if eff.notifyStart then
    match s1.pc with
    | LockPC.idle => lockWake t s1
    | LockPC.sleeping _ => s1
  else s1

/-- External stimulus occurrences, as the testbench can produce them: a clock
posedge with `bus_we` asserted carrying an address/data pair, a change of the
reset signal to a new value, or a plain clock posedge with `bus_we` low. -/
inductive Stim where
  | write : Nat → Nat → Stim
  | setReset : Bool → Stim
  | tick : Stim
deriving Repr, DecidableEq

/-- Whether a stimulus occurrence is a bus write. -/
def Stim.isWrite : Stim → Bool
  | Stim.write _ _ => true
  | Stim.setReset _ => false
  | Stim.tick => false

/-- Effect of one external occurrence at time `t`.  A bus write or a plain
clock edge triggers `bus_process`.  A reset change first commits the new
signal value, then triggers `bus_process` (its sensitivity list contains
`reset`; `bus_we` is low at that instant) and, in the same round, wakes
`locking_process` iff it is blocked at its static `wait()` — a thread inside
the timed `wait(500, SC_NS)` is not woken by its static sensitivity. -/
def applyStim (t : Nat) (ev : Stim) (s : SimState) : SimState :=
  match ev with
  | Stim.write addr data => applyBus t true addr data s
  | Stim.tick => applyBus t false 0 0 s
  | Stim.setReset v =>
    let s1 : SimState := { s with resetSig := v }
    let s2 := applyBus t false 0 0 s1
    match s2.pc with
    | LockPC.idle => lockWake t s2
    | LockPC.sleeping _ => s2

/-- Execute a chronological list of timed external occurrences.  Before each
occurrence, a pending timed wait whose wake-up instant has been reached
resumes first (ties resolved timer-first; the verified scenarios avoid
ties). -/
def runAux : SimState → List (Nat × Stim) → SimState
  | s, [] => s
  | s, (t, ev) :: rest =>
    let s1 : SimState :=
      match s.pc with
      | LockPC.sleeping w => if w ≤ t then lockResume w s else s
      | LockPC.idle => s
    runAux (applyStim t ev s1) rest

/-- After the last external occurrence the simulation keeps running until no
event is scheduled: a still-pending timed wait expires. -/
def flushTimer (s : SimState) : SimState :=
  match s.pc with
  | LockPC.sleeping w => lockResume w s
  | LockPC.idle => s

/-- Complete run of the model from the post-elaboration state. -/
def run (evs : List (Nat × Stim)) : SimState := flushTimer (runAux initState evs)

/-- Value of the `locked` signal at instant `t`, given the chronological list
of writes: the value of the last write at a time `≤ t`, and false before any
write (the default-constructed value of `sc_signal<bool>`). -/
def lockedAt (ws : List (Nat × Bool)) (t : Nat) : Bool :=
  ws.foldl (fun acc p => if p.1 ≤ t then p.2 else acc) false

/-- The canonical stimulus shape of the spec's scenarios: a reset pulse
(asserted at `r0`, deasserted at `r1`), then writes of N=1 at `a`, M=32 at
`b`, OD=1 at `c` and CTRL=1 at `T`. -/
def basicRun (r0 r1 a b c T : Nat) : List (Nat × Stim) :=
  [(r0, Stim.setReset true), (r1, Stim.setReset false),
   (a, Stim.write PLL_REG_N_ADDR 1), (b, Stim.write PLL_REG_M_ADDR 32),
   (c, Stim.write PLL_REG_OD_ADDR 1), (T, Stim.write PLL_REG_CTRL_ADDR 1)]

/-- Modelled from the spec: the `sc_event` primitive used for
`start_locking_event` is SystemC library code, not part of src/.  Spec §3:
an Event's `notify(delay)` schedules subscriber wake-up at `now + delay`; a
second `notify()` before the first fires does not queue two wake-ups
(idempotent).  `pending` is the absolute scheduled wake-up instant, if any. -/
structure StartEvent where
  pending : Option Nat
deriving Repr, DecidableEq

/-- Modelled from the spec: issuing `notify(delay)` at instant `now`.  With
no pending notification it schedules one at `now + delay`; with one already
pending the event still holds a single notification (the earlier of the
two), never two. -/
def StartEvent.notify (now delay : Nat) (e : StartEvent) : StartEvent :=
  match e.pending with
  | none => { pending := some (now + delay) }
  | some w => { pending := some (min w (now + delay)) }

/-- Modelled from the spec: advancing simulated time to `t` delivers the
pending notification — one wake-up of each subscriber — iff its scheduled
instant has been reached; the count of wake-ups delivered is returned. -/
def StartEvent.advanceTo (t : Nat) (e : StartEvent) : Nat × StartEvent :=
  match e.pending with
  | none => (0, e)
  | some w => if w ≤ t then (1, { pending := none }) else (0, e)

theorem lockWake_regs (t : Nat) (s : SimState) : (lockWake t s).regs = s.regs := by
  unfold lockWake
  split_ifs <;> rfl

theorem lockResume_regs (w : Nat) (s : SimState) : (lockResume w s).regs = s.regs := by
  unfold lockResume
  split_ifs <;> rfl

theorem flushTimer_regs (s : SimState) : (flushTimer s).regs = s.regs := by
  unfold flushTimer
  cases h : s.pc with
  | idle => rfl
  | sleeping w => exact lockResume_regs w s

/-- A `bus_process` triggering with `bus_we` low maps zeroed registers to
zeroed registers (the reset branch rewrites them to zero, every other branch
leaves them unchanged). -/
theorem applyBus_noWE_zero (t : Nat) (s : SimState) (h : s.regs = zeroRegs) :
    (applyBus t false 0 0 s).regs = zeroRegs := by
  unfold applyBus bus_process
  cases hrst : s.resetSig <;> simp [hrst, h]

/-- A non-write stimulus occurrence preserves zeroed registers. -/
theorem applyStim_noWrite_zero (t : Nat) (ev : Stim) (s : SimState)
    (hev : ev.isWrite = false) (h : s.regs = zeroRegs) :
    (applyStim t ev s).regs = zeroRegs := by
  cases ev with
  | write addr data => simp [Stim.isWrite] at hev
  | tick => exact applyBus_noWE_zero t s h
  | setReset v =>
    unfold applyStim
    have h2 : (applyBus t false 0 0 { s with resetSig := v }).regs = zeroRegs :=
      applyBus_noWE_zero t { s with resetSig := v } h
    cases hpc : (applyBus t false 0 0 { s with resetSig := v }).pc with
    | idle => simp only [hpc]; rw [lockWake_regs]; exact h2
    | sleeping w => simp only [hpc]; exact h2

/-- Zeroed registers persist through any run suffix that contains no bus
write. -/
theorem runAux_noWrites_zero :
    ∀ (evs : List (Nat × Stim)) (s : SimState), s.regs = zeroRegs →
      (∀ p ∈ evs, (p.2).isWrite = false) → (runAux s evs).regs = zeroRegs := by
  intro evs
  induction evs with
  | nil => intro s h _; exact h
  | cons p rest ih =>
    intro s h hall
    obtain ⟨t, ev⟩ := p
    unfold runAux
    have hev : ev.isWrite = false := hall (t, ev) (List.mem_cons_self _ _)
    have hrest : ∀ q ∈ rest, (q.2).isWrite = false := fun q hq => hall q (List.mem_cons_of_mem _ hq)
    cases hpc : s.pc with
    | idle =>
      simp only [hpc]
      exact ih _ (applyStim_noWrite_zero t ev s hev h) hrest
    | sleeping w =>
      simp only [hpc]
      by_cases hw : w ≤ t
      · simp only [if_pos hw]
        have h1 : (lockResume w s).regs = zeroRegs := by rw [lockResume_regs]; exact h
        exact ih _ (applyStim_noWrite_zero t ev _ hev h1) hrest
      · simp only [if_neg hw]
        exact ih _ (applyStim_noWrite_zero t ev s hev h) hrest

/-- **C1** — For every run in which the stimulus writes N=1, M=32, OD=1 and
then CTRL=1 at time T, with no further writes and no reset after T, the
locked status line is true at an instant exactly when that instant is at
least T + 500: it transitions false→true at exactly T + 500 and is never
true strictly before. -/
theorem C1_lock_exactly_at_T_plus_500 (r0 r1 a b c T : Nat)
    (h0 : r0 < r1) (h1 : r1 < a) (h2 : a < b) (h3 : b < c) (h4 : c < T) :
    ∀ t, lockedAt (run (basicRun r0 r1 a b c T)).lockedWrites t = true ↔ T + 500 ≤ t := by
  intro t
  have hw : (run (basicRun r0 r1 a b c T)).lockedWrites =
      [(r0, false), (T, false), (T + 500, true)] := by
    simp [run, runAux, basicRun, applyStim, applyBus, bus_process, lockWake, lockResume,
      flushTimer, initState, pll_ctor, zeroRegs,
      PLL_REG_N_ADDR, PLL_REG_M_ADDR, PLL_REG_OD_ADDR, PLL_REG_CTRL_ADDR]
  rw [hw]
  unfold lockedAt
  simp only [List.foldl_cons, List.foldl_nil]
  split_ifs <;> simp <;> omega

/-- Witness for C1 at the testbench's concrete timing. -/
theorem C1_lock_exactly_at_T_plus_500_witness :
    lockedAt (run (basicRun 0 50 60 70 80 90)).lockedWrites 590 = true ∧
      lockedAt (run (basicRun 0 50 60 70 80 90)).lockedWrites 589 = false := by
  have h := C1_lock_exactly_at_T_plus_500 0 50 60 70 80 90
    (by decide) (by decide) (by decide) (by decide) (by decide)
  constructor
  · exact (h 590).mpr (by decide)
  · by_contra hc
    have : lockedAt (run (basicRun 0 50 60 70 80 90)).lockedWrites 589 = true := by
      revert hc
      cases lockedAt (run (basicRun 0 50 60 70 80 90)).lockedWrites 589 <;> simp
    have := (h 589).mp this
    omega

/-- The locked signal reconstructed from a list of writes that are all low is
low at every instant. -/
theorem lockedAt_allFalse (t : Nat) :
    ∀ ws : List (Nat × Bool), (∀ p ∈ ws, p.2 = false) → lockedAt ws t = false := by
  intro ws
  induction ws with
  | nil => intro _; rfl
  | cons p rest ih =>
    intro h
    obtain ⟨pt, pv⟩ := p
    have hp : pv = false := h (pt, pv) (List.mem_cons_self _ _)
    subst hp
    have hrest : ∀ q ∈ rest, q.2 = false := fun q hq => h q (List.mem_cons_of_mem _ hq)
    have hih := ih hrest
    unfold lockedAt at hih ⊢
    rw [List.foldl_cons]
    simpa using hih

/-- **C2** — Whenever `bus_process` is invoked with the reset signal reading
true, the configuration state is set to `{N=0, M=0, OD=0, enabled=false}` and
no bus decoding happens: no register write other than the clearing, no event
notification, no direct write to `locked`; moreover, from a state with
cleared registers, any continuation of the run that contains no bus write
(reset deassertions, reset assertions, plain clock edges) leaves all four
fields exactly `{0,0,0,false}`. -/
theorem C2_reset_clears_and_persists :
    (∀ (we : Bool) (addr data : Nat) (r : PllRegs),
        bus_process true we addr data r =
          { regs := zeroRegs, notifyStart := false, lockedWrite := none }) ∧
    (∀ (s : SimState) (evs : List (Nat × Stim)), s.regs = zeroRegs →
        (∀ p ∈ evs, (p.2).isWrite = false) →
        (flushTimer (runAux s evs)).regs = zeroRegs) := by
  constructor
  · intro we addr data r; rfl
  · intro s evs h hall
    rw [flushTimer_regs]
    exact runAux_noWrites_zero evs s h hall

/-- Witness for C2: a concrete reset-branch invocation and a concrete
no-write run suffix. -/
theorem C2_reset_clears_and_persists_witness :
    bus_process true true PLL_REG_CTRL_ADDR 1
        { reg_n := 3, reg_m := 9, reg_od := 2, pll_enable := true } =
      { regs := zeroRegs, notifyStart := false, lockedWrite := none } ∧
    (flushTimer (runAux
        { regs := zeroRegs, resetSig := false, pc := LockPC.idle, lockedWrites := [] }
        [(5, Stim.setReset true), (55, Stim.setReset false), (60, Stim.tick)])).regs = zeroRegs := by
  constructor
  · exact C2_reset_clears_and_persists.1 true PLL_REG_CTRL_ADDR 1 _
  · exact C2_reset_clears_and_persists.2 _ _ rfl (by decide)

/-- **C3** — If reset is asserted at `d`, strictly between the enabling CTRL
write at `T` and `T + 500`, the status line is false at the instant of the
reset, and is in fact false at every instant of the run: the timed wait in
flight at `d` expires at `T + 500` with `pll_enable` already cleared by the
reset, so the originally scheduled assertion never occurs. -/
theorem C3_reset_mid_lock_no_spurious_assert (r0 r1 a b c T d : Nat)
    (h0 : r0 < r1) (h1 : r1 < a) (h2 : a < b) (h3 : b < c) (h4 : c < T)
    (h5 : T < d) (h6 : d < T + 500) :
    lockedAt (run (basicRun r0 r1 a b c T ++ [(d, Stim.setReset true)])).lockedWrites d
        = false ∧
    ∀ t, lockedAt (run (basicRun r0 r1 a b c T ++ [(d, Stim.setReset true)])).lockedWrites t
        = false := by
  have hnd : ¬ (T + 500 ≤ d) := by omega
  have hw : (run (basicRun r0 r1 a b c T ++ [(d, Stim.setReset true)])).lockedWrites =
      [(r0, false), (T, false)] := by
    simp [run, runAux, basicRun, applyStim, applyBus, bus_process, lockWake, lockResume,
      flushTimer, initState, pll_ctor, zeroRegs, hnd,
      PLL_REG_N_ADDR, PLL_REG_M_ADDR, PLL_REG_OD_ADDR, PLL_REG_CTRL_ADDR]
  rw [hw]
  refine ⟨?_, fun t => ?_⟩ <;>
    exact lockedAt_allFalse _ _ (by intro p hp; simp at hp; rcases hp with h | h <;> simp [h])

/-- Witness for C3 at concrete times (reset at 300, in the middle of the
lock attempt started at 90). -/
theorem C3_reset_mid_lock_no_spurious_assert_witness :
    lockedAt (run (basicRun 0 50 60 70 80 90 ++ [(300, Stim.setReset true)])).lockedWrites 590
      = false :=
  (C3_reset_mid_lock_no_spurious_assert 0 50 60 70 80 90 300
    (by decide) (by decide) (by decide) (by decide) (by decide) (by decide) (by decide)).2 590

/-- **C4** — If CTRL is written with data 0 at `d`, strictly between the
enabling CTRL write at `T` and `T + 500`, the status line never becomes true
for that lock attempt: when the 500-unit delay elapses `pll_enable` is false,
so no assertion happens and the lock process returns to waiting. -/
theorem C4_disable_mid_lock_never_asserts (r0 r1 a b c T d : Nat)
    (h0 : r0 < r1) (h1 : r1 < a) (h2 : a < b) (h3 : b < c) (h4 : c < T)
    (h5 : T < d) (h6 : d < T + 500) :
    (∀ t, lockedAt
        (run (basicRun r0 r1 a b c T ++ [(d, Stim.write PLL_REG_CTRL_ADDR 0)])).lockedWrites t
        = false) ∧
    (run (basicRun r0 r1 a b c T ++ [(d, Stim.write PLL_REG_CTRL_ADDR 0)])).pc
        = LockPC.idle := by
  have hnd : ¬ (T + 500 ≤ d) := by omega
  have hw : run (basicRun r0 r1 a b c T ++ [(d, Stim.write PLL_REG_CTRL_ADDR 0)]) =
      { regs := { reg_n := 1, reg_m := 32, reg_od := 1, pll_enable := false },
        resetSig := false, pc := LockPC.idle,
        lockedWrites := [(r0, false), (T, false), (d, false)] } := by
    simp [run, runAux, basicRun, applyStim, applyBus, bus_process, lockWake, lockResume,
      flushTimer, initState, pll_ctor, zeroRegs, hnd,
      PLL_REG_N_ADDR, PLL_REG_M_ADDR, PLL_REG_OD_ADDR, PLL_REG_CTRL_ADDR]
  rw [hw]
  refine ⟨fun t => ?_, rfl⟩
  exact lockedAt_allFalse _ _ (by intro p hp; simp at hp; rcases hp with h | h | h <;> simp [h])

/-- Witness for C4 at concrete times (disable write at 300, in the middle of
the lock attempt started at 90). -/
theorem C4_disable_mid_lock_never_asserts_witness :
    lockedAt (run (basicRun 0 50 60 70 80 90 ++
        [(300, Stim.write PLL_REG_CTRL_ADDR 0)])).lockedWrites 590 = false :=
  (C4_disable_mid_lock_never_asserts 0 50 60 70 80 90 300
    (by decide) (by decide) (by decide) (by decide) (by decide) (by decide) (by decide)).1 590

/-- **C5** — Code-bug evidence: on a CTRL write with data ≠ 1 (reset low,
write-enable high), `bus_process` itself issues a direct write of false to
the `locked` signal instead of routing the disable through the lock-sequence
process; the status signal therefore has two writers, contrary to the
single-writer requirement. -/
theorem C5_bus_process_writes_locked_directly :
    (bus_process false true PLL_REG_CTRL_ADDR 0 zeroRegs).lockedWrite = some false := rfl

/-- **C6** — Code-bug evidence: when the lock delay elapses with the PLL
enabled and `N = 0` (or `OD = 0`), the diagnostic computation
`F_out = F_ref * M / (N * OD)` is reached with a zero divisor — there is no
guard in `locking_process` preventing the division. -/
theorem C6_diagnostic_division_unguarded :
    lock_diagnostic { reg_n := 0, reg_m := 32, reg_od := 1, pll_enable := true }
      = DiagResult.divByZero := rfl

/-- **C7** — Code-bug evidence: the constructor body assigns only
`pll_enable`; the divider registers are left exactly as default member
construction produced them, so their post-construction values rely on the
implicit `sc_uint<8>` default rather than an explicit assignment in the
constructor. -/
theorem C7_ctor_assigns_only_enable :
    pll_ctor { reg_n := 7, reg_m := 3, reg_od := 5, pll_enable := true } =
      { reg_n := 7, reg_m := 3, reg_od := 5, pll_enable := false } := rfl

/-- **C8** — With a notification already pending (scheduled for instant `w`,
not yet fired), issuing `notify` a second time leaves a single pending
notification, and advancing time past it — and then arbitrarily further —
delivers exactly one wake-up in total, not two. -/
theorem C8_second_notify_single_wakeup (w now d t t2 : Nat)
    (hp : now ≤ w) (h1 : min w (now + d) ≤ t) (h2 : t ≤ t2) :
    ((StartEvent.notify now d { pending := some w }).advanceTo t).1 +
      (((StartEvent.notify now d { pending := some w }).advanceTo t).2.advanceTo t2).1
      = 1 := by
  unfold StartEvent.notify StartEvent.advanceTo
  simp [h1]

/-- Witness for C8 at a concrete double notification. -/
theorem C8_second_notify_single_wakeup_witness :
    ((StartEvent.notify 3 0 { pending := some 5 }).advanceTo 10).1 +
      (((StartEvent.notify 3 0 { pending := some 5 }).advanceTo 10).2.advanceTo 20).1 = 1 :=
  C8_second_notify_single_wakeup 5 3 0 10 20 (by decide) (by decide) (by decide)

/-- **C9 counterexample** — Writing the 32-bit value 256 to offset 0x00 with
write-enable asserted does not store 256: the assignment into the 8-bit
`sc_uint<8> reg_n` truncates, so the value subsequently read differs from the
written data. -/
theorem C9_counterexample :
    ¬ ((bus_process false true PLL_REG_N_ADDR 256 zeroRegs).regs.reg_n = 256) := by
  decide

/-- **C9 (amended)** — For every 32-bit data value written with write-enable
asserted to offset 0x00, 0x04 or 0x08, the data is stored truncated to the
low 8 bits (mod 256) into the corresponding divider register; the value the
lock process subsequently reads equals the written data exactly when the
data fits in 8 bits. -/
theorem C9_store_truncated_mod_256 (data : Nat) (r : PllRegs) (h : data < 2 ^ 32) :
    ((bus_process false true PLL_REG_N_ADDR data r).regs.reg_n = data % 256) ∧
    ((bus_process false true PLL_REG_M_ADDR data r).regs.reg_m = data % 256) ∧
    ((bus_process false true PLL_REG_OD_ADDR data r).regs.reg_od = data % 256) ∧
    (data < 256 → (bus_process false true PLL_REG_N_ADDR data r).regs.reg_n = data) := by
  refine ⟨?_, ?_, ?_, ?_⟩ <;>
    simp [bus_process, PLL_REG_N_ADDR, PLL_REG_M_ADDR, PLL_REG_OD_ADDR, PLL_REG_CTRL_ADDR]

/-- Witness for the amended C9 at data 300 (truncated to 44) applied to the
post-reset register state. -/
theorem C9_store_truncated_mod_256_witness :
    (bus_process false true PLL_REG_N_ADDR 300 zeroRegs).regs.reg_n = 300 % 256 :=
  (C9_store_truncated_mod_256 300 zeroRegs (by norm_num)).1

/-- **C10** — If CTRL is written with data 1 at `T2` while the status line is
already true (the lock started at `T` completed at `T + 500 < T2`) and reset
stays deasserted, the lock sequence restarts: the line is true exactly on
`[T + 500, T2)` and from `T2 + 500` on — driven false at `T2` and true again
at exactly `T2 + 500`. -/
theorem C10_reenable_restarts_lock (r0 r1 a b c T T2 : Nat)
    (h0 : r0 < r1) (h1 : r1 < a) (h2 : a < b) (h3 : b < c) (h4 : c < T)
    (h5 : T + 500 < T2) :
    ∀ t, lockedAt
        (run (basicRun r0 r1 a b c T ++ [(T2, Stim.write PLL_REG_CTRL_ADDR 1)])).lockedWrites t
        = true ↔ ((T + 500 ≤ t ∧ t < T2) ∨ T2 + 500 ≤ t) := by
  intro t
  have hd : T + 500 ≤ T2 := le_of_lt h5
  have hw : (run (basicRun r0 r1 a b c T ++ [(T2, Stim.write PLL_REG_CTRL_ADDR 1)])).lockedWrites =
      [(r0, false), (T, false), (T + 500, true), (T2, false), (T2 + 500, true)] := by
    simp [run, runAux, basicRun, applyStim, applyBus, bus_process, lockWake, lockResume,
      flushTimer, initState, pll_ctor, zeroRegs, hd,
      PLL_REG_N_ADDR, PLL_REG_M_ADDR, PLL_REG_OD_ADDR, PLL_REG_CTRL_ADDR]
  rw [hw]
  unfold lockedAt
  simp only [List.foldl_cons, List.foldl_nil]
  split_ifs <;> simp <;> omega

/-- Witness for C10: a re-enable write at 700 after the lock at 590; the line
is true again at 1200. -/
theorem C10_reenable_restarts_lock_witness :
    lockedAt (run (basicRun 0 50 60 70 80 90 ++
        [(700, Stim.write PLL_REG_CTRL_ADDR 1)])).lockedWrites 1200 = true := by
  have h := C10_reenable_restarts_lock 0 50 60 70 80 90 700
    (by decide) (by decide) (by decide) (by decide) (by decide) (by decide)
  exact (h 1200).mpr (Or.inr (by decide))

end PllModel
